import Mathlib

/-!
Verification of the Smart Financial Coach transaction-analysis pipeline and
its frontend client, shallowly embedded in Lean 4.

Sources embedded:
* `frontend/src/types.ts` — the data model (Category, Transaction, Anomaly,
  RecurringCharge, Delta, Insight, SpendingSummary, GoalResponse, …);
* `frontend/src/api/client.ts` — `handleResponse`, `uploadAndAnalyze`;
* `frontend/src/components/SpendingChart.tsx` — `chartData`, the legend;
* the backend pipeline stages (`services/categorizer.py`,
  `anomaly_detector.py`, `recurring_detector.py`, `insight_generator.py`,
  goal forecasting) are not part of the provided sources; they are modelled
  from the specification, as marked on each definition below.

Monetary amounts are signed decimals, embedded as `ℚ`.  Calendar dates are
embedded as absolute day indices (`Nat`), with months as consecutive 30-day
blocks.
-/

namespace Dinera

/-- Embedding of `Category` from `types.ts`: id, name, icon, color, `is_essential`. -/
structure Category where
  id : Nat
  name : String
  icon : Option String
  color : Option String
  is_essential : Bool
  deriving DecidableEq, Repr

/-- Categorization provenance: `'rule' | 'ai' | 'user' | 'fallback'`
from `types.ts` (`Transaction.source`). -/
inductive Source where
  | rule
  | ai
  | user
  | fallback
  deriving DecidableEq, Repr

/-- Embedding of `Transaction` from `types.ts`: raw fields (date, description, signed
amount) plus analysis fields (category reference, confidence, source),
the latter three nullable. Dates are absolute day indices. -/
structure Transaction where
  id : Nat
  date : Nat
  description : String
  amount : ℚ
  category : Option Nat
  confidence : Option ℚ
  source : Option Source
  deriving DecidableEq, Repr

/-! ## Categorizer (stage 1) -/

/-- Modelled from the spec: a deterministic categorization rule — a merchant
keyword matched as a substring of the normalized description, mapping to a
category id ("substring/regex match on normalized description, merchant
keyword tables"). -/
structure Rule where
  keyword : String
  categoryId : Nat
  deriving DecidableEq, Repr

/-- Modelled from the spec: description normalization for rule matching
(case-fold, character by character). -/
def normalizeDesc (s : String) : String :=
  ⟨s.data.map Char.toLower⟩

/-- Modelled from the spec: does the keyword of `r` occur inside the
normalized description? -/
def ruleMatches (r : Rule) (desc : String) : Bool :=
  decide (r.keyword.data <:+: (normalizeDesc desc).data)

/-- Modelled from the spec: first matching rule, in rule order. -/
def findRule (rules : List Rule) (desc : String) : Option Rule :=
  rules.find? (fun r => ruleMatches r desc)

/-- Modelled from the spec: the default "Uncategorized" category id used by
the fallback path. -/
def uncategorizedId : Nat := 0

/-- Clamp a rational into `[0,1]`; the categorizer stores AI confidences
through this, keeping the spec invariant `confidence ∈ [0,1]`. -/
def clamp01 (q : ℚ) : ℚ := min 1 (max 0 q)

/-- Modelled from the spec (§4.1 Categorizer): user-sourced transactions are
left untouched; otherwise deterministic rules fire first
(`source=rule, confidence=1.0`); unmatched transactions go to the AI
categorizer stub (`source=ai`); AI failure or an out-of-taxonomy guess falls
back to "Uncategorized" (`source=fallback, confidence=0`).
`aiStub : description → amount → Option (categoryId × confidence)` is the
deterministic AI collaborator capability. -/
def categorizeOne (rules : List Rule) (aiStub : String → ℚ → Option (Nat × ℚ))
    (tax : List Category) (t : Transaction) : Transaction :=
  if t.source = some Source.user then t
  else
    match findRule rules t.description with
    | some r =>
        { t with category := some r.categoryId, confidence := some 1,
                 source := some Source.rule }
    | none =>
        match aiStub t.description t.amount with
        | some (cid, conf) =>
            if tax.any (fun c => c.id = cid) then
              { t with category := some cid, confidence := some (clamp01 conf),
                       source := some Source.ai }
            else
              { t with category := some uncategorizedId, confidence := some 0,
                       source := some Source.fallback }
        | none =>
            { t with category := some uncategorizedId, confidence := some 0,
                     source := some Source.fallback }

/-- Modelled from the spec: the Categorizer annotates every transaction. -/
def categorizeAll (rules : List Rule) (aiStub : String → ℚ → Option (Nat × ℚ))
    (tax : List Category) (ts : List Transaction) : List Transaction :=
  ts.map (categorizeOne rules aiStub tax)

/-! ## Anomaly detector (stage 2) -/

/-- Modelled from the spec: minimum per-category sample size for statistical
baselines ("e.g., ≥5 historical transactions"). -/
def MIN_SAMPLE_SIZE : Nat := 5

/-- Mean of a list of rationals (0 on the empty list). -/
def listMean (xs : List ℚ) : ℚ := xs.sum / xs.length

/-- Population variance of a list of rationals. -/
def listVariance (xs : List ℚ) : ℚ :=
  ((xs.map (fun x => (x - listMean xs) ^ 2)).sum) / xs.length

/-- Embedding of `Anomaly` from `types.ts` (statistics fields): one transaction, its
category, type, severity, expected (baseline mean) and actual values.
The z-score is carried squared (`zsq = z²`) so everything stays in `ℚ`;
`|z| ≥ k ↔ zsq ≥ k²`. -/
structure Anomaly where
  transaction_id : Nat
  category_id : Nat
  anomaly_type : String
  severity : String
  expected : ℚ
  actual : ℚ
  zsq : ℚ
  deriving DecidableEq, Repr

/-- Modelled from the spec: severity mapping `|z|≥3 → high, ≥2 → medium,
≥1.5 → low; below threshold → not flagged`, decided on `z²`. -/
def severityFor (zsq : ℚ) : Option String :=
  if 9 ≤ zsq then some "high"
  else if 4 ≤ zsq then some "medium"
  else if 9 / 4 ≤ zsq then some "low"
  else none

/-- Modelled from the spec (§4.2): anomalies of one category. Baselines come
from the amount magnitudes of the category's transactions; groups below
`MIN_SAMPLE_SIZE` produce no anomalies; zero variance falls back to the
fixed-ratio threshold (`> 3× mean`). -/
def detectCategoryAnomalies (ts : List Transaction) (cid : Nat) : List Anomaly :=
  let group := ts.filter (fun t => t.category = some cid)
  if group.length < MIN_SAMPLE_SIZE then []
  else
    let amts := group.map (fun t => |t.amount|)
    let m := listMean amts
    let v := listVariance amts
    group.filterMap (fun t =>
      if v = 0 then
        if 3 * m < |t.amount| then
          some ⟨t.id, cid, "amount", "high", m, |t.amount|, 0⟩
        else none
      else
        match severityFor ((|t.amount| - m) ^ 2 / v) with
        | some sev => some ⟨t.id, cid, "amount", sev, m, |t.amount|,
                            (|t.amount| - m) ^ 2 / v⟩
        | none => none)

/-- Modelled from the spec: the AnomalyDetector, grouping by category. -/
def detectAnomalies (tax : List Category) (ts : List Transaction) : List Anomaly :=
  tax.flatMap (fun c => detectCategoryAnomalies ts c.id)

/-! ## Recurring-charge detector (stage 3) -/

/-- Modelled from the spec: cluster-key normalization — case-fold and strip
trailing transaction ids/numbers. -/
def normalizeKey (s : String) : String :=
  ⟨(((s.data.map Char.toLower).reverse.dropWhile
      (fun c => c.isDigit || c = ' ' || c = '#' || c = '-')).reverse)⟩

/-- Embedding of `RecurringCharge` from `types.ts`: cluster description, representative
amount, frequency label, frequency in days, occurrence count, gray-charge
flag, confidence. -/
structure RecurringCharge where
  description : String
  amount : ℚ
  frequency : String
  frequency_days : ℚ
  occurrences : Nat
  is_gray_charge : Bool
  confidence : ℚ
  deriving DecidableEq, Repr

/-- Modelled from the spec: the small-dollar threshold for gray charges
("e.g., <$10"). -/
def GRAY_CHARGE_THRESHOLD : ℚ := 10

/-- Modelled from the spec: frequency label from the mean inter-occurrence
gap — weekly (~7±2 days), monthly (~28–31 days), else irregular. -/
def frequencyLabel (g : ℚ) : String :=
  if 5 ≤ g ∧ g ≤ 9 then "weekly"
  else if 28 ≤ g ∧ g ≤ 31 then "monthly"
  else "irregular"

/-- Day gaps between consecutive sorted dates, as rationals. -/
def dayGaps (dates : List Nat) : List ℚ :=
  let sorted := List.insertionSort (· ≤ ·) dates
  (sorted.zip sorted.tail).map (fun p => (p.2 : ℚ) - (p.1 : ℚ))

/-- Modelled from the spec: is the category of the cluster's transactions
flagged essential in the taxonomy? -/
def clusterEssential (tax : List Category) (group : List Transaction) : Bool :=
  group.any (fun t =>
    tax.any (fun c => t.category = some c.id && c.is_essential))

/-- Modelled from the spec (§4.3): one cluster. Clusters with fewer than two
occurrences are never recurring; gap irregularity (coefficient of variation
> 0.3, decided as `variance > 0.09·mean²`) rejects the cluster; the
gray-charge flag holds when the representative magnitude is below the
small-dollar threshold and the category is not essential; confidence scales
with occurrence count. -/
def detectCluster (tax : List Category) (ts : List Transaction)
    (key : String) : Option RecurringCharge :=
  let group := ts.filter (fun t => normalizeKey t.description = key)
  if group.length < 2 then none
  else
    let gaps := dayGaps (group.map (fun t => t.date))
    let gm := listMean gaps
    let gv := listVariance gaps
    if 9 / 100 * gm ^ 2 < gv then none
    else
      let amt := listMean (group.map (fun t => |t.amount|))
      some { description := key
             amount := amt
             frequency := frequencyLabel gm
             frequency_days := gm
             occurrences := group.length
             is_gray_charge :=
               decide (amt < GRAY_CHARGE_THRESHOLD) &&
                 !(clusterEssential tax group)
             confidence := min 1 ((group.length : ℚ) / 10) }

/-- Modelled from the spec: the RecurringChargeDetector — cluster by
normalized description, one candidate per distinct key. -/
def detectRecurring (tax : List Category) (ts : List Transaction) :
    List RecurringCharge :=
  ((ts.map (fun t => normalizeKey t.description)).dedup).filterMap
    (detectCluster tax ts)

/-! ## Delta calculator (stage 4) -/

/-- Month of an absolute day index (30-day blocks). -/
def monthIdx (d : Nat) : Nat := d / 30

/-- Embedding of `Delta` from `types.ts`: per-category current/previous amounts, change
amount and percent change. The percent is embedded as `Option ℚ`, the
spec's division-safe representation (`none` = null/sentinel when the
previous amount is zero). -/
structure Delta where
  category_id : Nat
  current_amount : ℚ
  previous_amount : ℚ
  change_amount : ℚ
  change_percent : Option ℚ
  deriving DecidableEq, Repr

/-- Modelled from the spec (§4.4):
`change_percent = (current − previous) / |previous|` when `previous ≠ 0`,
else a null percent — never a division error. -/
def changePercent (current previous : ℚ) : Option ℚ :=
  if previous = 0 then none else some ((current - previous) / |previous|)

/-- Modelled from the spec: build one Delta from the two period amounts. -/
def mkDelta (cid : Nat) (current previous : ℚ) : Delta :=
  { category_id := cid
    current_amount := current
    previous_amount := previous
    change_amount := current - previous
    change_percent := changePercent current previous }

/-- Total signed amount of a category in a month. -/
def sumCatMonth (ts : List Transaction) (cid m : Nat) : ℚ :=
  ((ts.filter (fun t => t.category = some cid && monthIdx t.date = m)).map
    (fun t => t.amount)).sum

/-- Most recent month present in the data. -/
def maxMonth (ts : List Transaction) : Nat :=
  (ts.map (fun t => monthIdx t.date)).foldr max 0

/-- Modelled from the spec: the DeltaCalculator — requires at least two
distinct months; one Delta per category present in both the most recent
month and the prior month. -/
def calcDeltas (tax : List Category) (ts : List Transaction) : List Delta :=
  if ((ts.map (fun t => monthIdx t.date)).dedup).length < 2 then []
  else
    let cur := maxMonth ts
    let prev := cur - 1
    (tax.filter (fun c =>
        ts.any (fun t => t.category = some c.id && monthIdx t.date = cur) &&
        ts.any (fun t => t.category = some c.id && monthIdx t.date = prev))).map
      (fun c => mkDelta c.id (sumCatMonth ts c.id cur) (sumCatMonth ts c.id prev))

/-! ## Insight generator (stage 5) -/

/-- Embedding of `Insight` from `types.ts` (ordering-relevant fields): type, priority
(1 = highest), title, confidence. -/
structure Insight where
  itype : String
  priority : Nat
  title : String
  confidence : ℚ
  deriving DecidableEq, Repr

/-- Modelled from the spec (§4.5): deterministic template insights —
gray-charge and anomaly insights at priority 1, spending-trend insights at
priority 2 (Delta above a percent threshold), a positive insight at
priority 3 when nothing fired. -/
def templateInsights (anoms : List Anomaly) (recs : List RecurringCharge)
    (ds : List Delta) : List Insight :=
  let grays := recs.filter (fun r => r.is_gray_charge)
  (if 0 < grays.length then
    [{ itype := "subscription", priority := 1, title := "Gray charges found",
       confidence := 9 / 10 }]
   else []) ++
  anoms.map (fun _ =>
    { itype := "anomaly", priority := 1, title := "Unusual transaction",
      confidence := 8 / 10 }) ++
  ds.filterMap (fun d =>
    match d.change_percent with
    | some p =>
        if 3 / 10 ≤ p then
          some { itype := "spending", priority := 2,
                 title := "Spending up vs last month", confidence := 7 / 10 }
        else none
    | none => none) ++
  (if anoms.isEmpty && grays.isEmpty then
    [{ itype := "positive", priority := 3, title := "Spending looks steady",
       confidence := 6 / 10 }]
   else [])

/-- Modelled from the spec: the final insight ordering — priority ascending,
confidence descending as tiebreak. -/
def insightOrder (a b : Insight) : Prop :=
  a.priority < b.priority ∨
    (a.priority = b.priority ∧ b.confidence ≤ a.confidence)

instance : DecidableRel insightOrder := fun a b => by
  unfold insightOrder
  infer_instance

instance : IsTrans Insight insightOrder := by
  constructor
  intro a b c h1 h2
  rcases h1 with h1 | ⟨h1, h1c⟩ <;> rcases h2 with h2 | ⟨h2, h2c⟩
  · exact Or.inl (h1.trans h2)
  · exact Or.inl (h2 ▸ h1)
  · exact Or.inl (h1 ▸ h2)
  · exact Or.inr ⟨h1.trans h2, h2c.trans h1c⟩

instance : IsTotal Insight insightOrder := by
  constructor
  intro a b
  rcases Nat.lt_trichotomy a.priority b.priority with h | h | h
  · exact Or.inl (Or.inl h)
  · rcases le_total b.confidence a.confidence with hc | hc
    · exact Or.inl (Or.inr ⟨h, hc⟩)
    · exact Or.inr (Or.inr ⟨h.symm, hc⟩)
  · exact Or.inr (Or.inl h)

/-- Modelled from the spec: the InsightGenerator — template insights plus
whatever the AI summarizer returned (`none` = AI-call failure, degrading
gracefully to templates only), sorted by priority then confidence. -/
def generateInsights (anoms : List Anomaly) (recs : List RecurringCharge)
    (ds : List Delta) (aiExtra : Option (List Insight)) : List Insight :=
  List.insertionSort insightOrder (templateInsights anoms recs ds ++ aiExtra.getD [])

/-! ## Goal forecaster (stage 6) -/

/-- Embedding of `GoalCut` from `types.ts`: one suggested category cut. -/
structure GoalCut where
  category : String
  current_amount : ℚ
  suggested_amount : ℚ
  savings : ℚ
  difficulty : String
  deriving DecidableEq, Repr

/-- Embedding of `GoalResponse` from `types.ts`: target, discretionary spend,
achievability, suggested cuts, total potential savings, remaining gap
(null when achievable). -/
structure GoalResponse where
  target_amount : ℚ
  current_discretionary : ℚ
  achievable : Bool
  suggested_cuts : List GoalCut
  total_potential_savings : ℚ
  gap_amount : Option ℚ
  deriving DecidableEq, Repr

/-- Modelled from the spec: difficulty tag from the cut's fraction of the
category's current spend (small fraction = easy). -/
def difficultyFor (frac : ℚ) : String :=
  if frac ≤ 1 / 4 then "easy"
  else if frac ≤ 1 / 2 then "moderate"
  else "hard"

/-- Modelled from the spec: candidate cuts — non-essential categories ranked
by reducible amount (80% of current discretionary spend assumed cuttable),
largest saving first. -/
def candidateCuts (tax : List Category) (ts : List Transaction) : List GoalCut :=
  ((tax.filter (fun c => !c.is_essential)).filterMap (fun c =>
    let spend :=
      ((ts.filter (fun t => t.category = some c.id && t.amount < 0)).map
        (fun t => |t.amount|)).sum
    if spend = 0 then none
    else
      some { category := c.name
             current_amount := spend
             suggested_amount := spend - 8 / 10 * spend
             savings := 8 / 10 * spend
             difficulty := difficultyFor (8 / 10) })).insertionSort
    (fun a b => b.savings ≤ a.savings)

/-- Modelled from the spec (§4.6): greedily accumulate suggested cuts until
the cumulative potential savings meets the target or candidates run out. -/
def greedyCuts (target : ℚ) : ℚ → List GoalCut → List GoalCut
  | _, [] => []
  | acc, c :: rest =>
      if target ≤ acc then []
      else c :: greedyCuts target (acc + c.savings) rest

/-- Modelled from the spec: the GoalForecaster verdict over an already
ranked candidate list. `achievable = true` iff the cumulative potential
savings of the chosen cuts reach the target; `gap_amount` is
`max 0 (target − cumulative)` when not achievable, else null. -/
def forecastGoal (cands : List GoalCut) (disc target : ℚ) : GoalResponse :=
  let chosen := greedyCuts target 0 cands
  let total := (chosen.map (fun c => c.savings)).sum
  { target_amount := target
    current_discretionary := disc
    achievable := decide (target ≤ total)
    suggested_cuts := chosen
    total_potential_savings := total
    gap_amount := if target ≤ total then none else some (max 0 (target - total)) }

/-! ## The full pipeline -/

/-- The derived-entity sets of one analysis run. -/
structure DerivedEntities where
  anomalies : List Anomaly
  recurring : List RecurringCharge
  deltas : List Delta
  insights : List Insight
  deriving DecidableEq, Repr

/-- Modelled from the spec (§2): the full pipeline — stages in fixed
dependency order, each consuming the completed output of the prior stage.
`aiStub` is the deterministic AI categorizer stub and `aiSum` the
deterministic AI summarizer stub (`none` = failure). Returns the
categorized transactions together with the derived entities. -/
def runPipeline (rules : List Rule) (aiStub : String → ℚ → Option (Nat × ℚ))
    (tax : List Category)
    (aiSum : List Anomaly → List RecurringCharge → List Delta → Option (List Insight))
    (ts : List Transaction) : List Transaction × DerivedEntities :=
  let cat := categorizeAll rules aiStub tax ts
  let anoms := detectAnomalies tax cat
  let recs := detectRecurring tax cat
  let ds := calcDeltas tax cat
  (cat, { anomalies := anoms
          recurring := recs
          deltas := ds
          insights := generateInsights anoms recs ds (aiSum anoms recs ds) })

/-! ## Spending summary and chart (`types.ts`, `SpendingChart.tsx`) -/

/-- Embedding of `CategorySpending` from `types.ts`. -/
structure CategorySpending where
  amount : ℚ
  count : Nat
  icon : Option String
  color : Option String
  is_essential : Bool
  deriving DecidableEq, Repr

/-- Embedding of `SpendingSummary` from `types.ts`; the `by_category` record is embedded
as an association list in object-entry order. -/
structure SpendingSummary where
  total_income : ℚ
  total_spending : ℚ
  net : ℚ
  by_category : List (String × CategorySpending)
  deriving DecidableEq, Repr

/-- One entry of `chartData` in `SpendingChart.tsx`: `{ name, value, icon }`. -/
structure ChartDatum where
  name : String
  value : ℚ
  icon : Option String
  deriving DecidableEq, Repr

/-- The descending-value ordering used by `SpendingChart.tsx`
(`sort((a, b) => b.value - a.value)`). -/
def chartOrder (a b : ChartDatum) : Prop := b.value ≤ a.value

instance : DecidableRel chartOrder := fun a b => by
  unfold chartOrder
  infer_instance

instance : IsTrans ChartDatum chartOrder := by
  constructor
  intro a b c h1 h2
  exact le_trans h2 h1

instance : IsTotal ChartDatum chartOrder := by
  constructor
  intro a b
  exact le_total b.value a.value

/-- Embedding of `chartData` from `SpendingChart.tsx`: entries of `by_category` with
negative amount (expenses only), mapped to the absolute amount, sorted by
value descending. -/
def chartData (s : SpendingSummary) : List ChartDatum :=
  List.insertionSort chartOrder
    ((s.by_category.filter (fun p => p.2.amount < 0)).map
      (fun p => ChartDatum.mk p.1 |p.2.amount| p.2.icon))

/-- The legend of `SpendingChart.tsx`: `chartData.slice(0, 5)`. -/
def legendEntries (s : SpendingSummary) : List ChartDatum :=
  (chartData s).take 5

/-- The "+N more categories" note of `SpendingChart.tsx`: rendered with
`N = chartData.length - 5` exactly when `chartData.length > 5`. -/
def moreNote (s : SpendingSummary) : Option Nat :=
  if 5 < (chartData s).length then some ((chartData s).length - 5) else none

/-! ## API client (`api/client.ts`) -/

/-- The view of a parsed JSON value that `handleResponse` reads: the optional
`detail` and `message` string fields of an error body. Success bodies are
carried opaquely. -/
structure Json where
  detail : Option String
  message : Option String
  deriving DecidableEq, Repr

/-- A fetch `Response` as `handleResponse` consumes it: `ok`, `status`, the
raw body text, and the value `response.json()` would produce on a success
body. -/
structure Response where
  ok : Bool
  status : Nat
  body : String
  jsonBody : Json
  deriving DecidableEq, Repr

/-- Embedding of `ApiError` from `api/client.ts`: message, HTTP status, optional details. -/
structure ApiError where
  message : String
  status : Nat
  details : Option String
  deriving DecidableEq, Repr

/-- JavaScript `a || b` over the optional `detail`/`message` fields:
`parsed.detail || parsed.message` falls through to `message` when `detail`
is absent or the empty string (falsy). -/
def jsOr (a b : Option String) : Option String :=
  match a with
  | some s => if s = "" then b else some s
  | none => b

/-- Embedding of `handleResponse` from `api/client.ts`, with JSON parsing of the error
body abstracted as `parse : String → Option Json` (`none` = `JSON.parse`
throws): on `ok` return the parsed body; otherwise throw an `ApiError`
carrying the response status and details taken from the error body's
`detail`/`message` when it parses, else the raw body text. -/
def handleResponse (parse : String → Option Json) (r : Response) :
    Except ApiError Json :=
  if r.ok then Except.ok r.jsonBody
  else
    Except.error
      { message := "API Error: " ++ toString r.status
        status := r.status
        details :=
          match parse r.body with
          | some parsed => jsOr parsed.detail parsed.message
          | none => some r.body }

/-! ## Client flow (`api/client.ts`, `uploadAndAnalyze`) -/

/-- Embedding of `UploadResponse` from `types.ts`. -/
structure UploadResponse where
  session_id : String
  filename : String
  row_count : Nat
  status : String
  deriving DecidableEq, Repr

/-- Embedding of `AnalyzeResponse` from `types.ts` (counts of derived entities). -/
structure AnalyzeResponse where
  session_id : String
  status : String
  transactions_categorized : Nat
  anomalies_detected : Nat
  recurring_charges_found : Nat
  insights_generated : Nat
  deriving DecidableEq, Repr

/-- Embedding of `DashboardResponse` from `types.ts`. -/
structure DashboardResponse where
  session_id : String
  status : String
  summary : SpendingSummary
  insights : List Insight
  anomalies : List Anomaly
  recurring_charges : List RecurringCharge
  deltas : List Delta
  deriving DecidableEq, Repr

/-- One completed API call of the client flow, in completion order. -/
inductive ApiCall where
  | upload
  | analyze (sessionId : String)
  | dashboard (sessionId : String)
  deriving DecidableEq, Repr

/-- The backend as the client sees it: a response for each endpoint. -/
structure Server where
  uploadResp : UploadResponse
  analyzeResp : String → AnalyzeResponse
  dashboardResp : String → DashboardResponse

/-- A client computation: given the server, extends the trace of completed
API calls and yields a value. `await` is sequential composition — the next
call is recorded only after the previous one completed. -/
def ClientM (α : Type) := Server → List ApiCall → List ApiCall × α

/-- Sequential composition of client computations (the embedding of
`await` chaining in `api/client.ts`). -/
def ClientM.bind (x : ClientM α) (f : α → ClientM β) : ClientM β :=
  fun srv tr =>
    let r := x srv tr
    f r.2 srv r.1

/-- Embedding of `uploadCSV` from `api/client.ts`: POST `/upload`. -/
def uploadCSV : ClientM UploadResponse :=
  fun srv tr => (tr ++ [ApiCall.upload], srv.uploadResp)

/-- Embedding of `analyzeSession` from `api/client.ts`: POST `/analyze/:session_id`. -/
def analyzeSession (sessionId : String) : ClientM AnalyzeResponse :=
  fun srv tr => (tr ++ [ApiCall.analyze sessionId], srv.analyzeResp sessionId)

/-- Embedding of `getDashboard` from `api/client.ts`: GET `/dashboard/:session_id`. -/
def getDashboard (sessionId : String) : ClientM DashboardResponse :=
  fun srv tr => (tr ++ [ApiCall.dashboard sessionId], srv.dashboardResp sessionId)

/-- Embedding of `uploadAndAnalyze` from `api/client.ts`: upload is awaited to completion,
then the analyze call is awaited on the returned session id, then the
dashboard is fetched for that session. -/
def uploadAndAnalyze : ClientM DashboardResponse :=
  ClientM.bind uploadCSV (fun up =>
    ClientM.bind (analyzeSession up.session_id) (fun _ =>
      getDashboard up.session_id))

/-! ## Concrete fixtures (used by witnesses) -/

/-- Fixture: a one-category taxonomy. -/
def taxEnt : List Category :=
  [{ id := 1, name := "Entertainment", icon := none, color := none,
     is_essential := false }]

/-- Fixture: a monthly NETFLIX transaction. -/
def netflixTx (i d : Nat) : Transaction :=
  { id := i, date := d, description := "NETFLIX", amount := -(1599 / 100 : ℚ),
    category := some 1, confidence := some 1, source := some Source.rule }

/-- Fixture: four monthly NETFLIX occurrences plus a lone SPOTIFY one. -/
def sampleTs : List Transaction :=
  [netflixTx 1 0, netflixTx 2 30, netflixTx 3 60, netflixTx 4 90,
   { id := 5, date := 10, description := "SPOTIFY", amount := -(999 / 100 : ℚ),
     category := some 1, confidence := some 1, source := some Source.rule }]

/-- Fixture: a user-categorized transaction. -/
def userTx : Transaction :=
  { id := 9, date := 3, description := "COFFEE SHOP", amount := -4,
    category := some 1, confidence := some (1 / 2), source := some Source.user }

/-- Fixture: one keyword rule. -/
def sampleRules : List Rule := [{ keyword := "netflix", categoryId := 1 }]

/-- Fixture: a weekly GYM charge with integer amount. -/
def gymTx (i d : Nat) : Transaction :=
  { id := i, date := d, description := "GYM", amount := -5,
    category := some 1, confidence := some 1, source := some Source.rule }

/-- Fixture: two weekly GYM occurrences plus a lone SPOTIFY one. -/
def recTs : List Transaction :=
  [gymTx 1 0, gymTx 2 7,
   { id := 3, date := 10, description := "SPOTIFY", amount := -6,
     category := some 1, confidence := some 1, source := some Source.rule }]

/-- Fixture: the RecurringCharge the detector emits for the GYM cluster. -/
def gymCharge : RecurringCharge :=
  { description := "gym", amount := 5, frequency := "weekly",
    frequency_days := 7, occurrences := 2, is_gray_charge := true,
    confidence := 1 / 5 }

/-- Fixture: an AI categorizer stub that always fails. -/
def failingAiStub : String → ℚ → Option (Nat × ℚ) := fun _ _ => none

/-- Fixture: the positive template insight fired on quiet data. -/
def posInsight : Insight :=
  { itype := "positive", priority := 3, title := "Spending looks steady",
    confidence := 6 / 10 }

/-- Fixture: a single candidate cut with savings 10. -/
def demoCut : GoalCut :=
  { category := "Dining", current_amount := 50, suggested_amount := 40,
    savings := 10, difficulty := "easy" }

/-- Fixture: a summary with six expense categories. -/
def chartSummary : SpendingSummary :=
  { total_income := 0, total_spending := -21, net := -21,
    by_category :=
      [("a", ⟨-6, 1, none, none, false⟩), ("b", ⟨-5, 1, none, none, false⟩),
       ("c", ⟨-4, 1, none, none, false⟩), ("d", ⟨-3, 1, none, none, false⟩),
       ("e", ⟨-2, 1, none, none, false⟩), ("f", ⟨-1, 1, none, none, false⟩)] }

/-! ## Theorems -/

/-- C3: a Delta with `previous_amount = 0` raises no division error — its
`change_percent` is the null sentinel while `change_amount` is still
`current − previous`; and when `previous ≠ 0`,
`change_percent = (current − previous) / |previous|`. -/
theorem delta_change_percent_safe (cid : Nat) (current previous : ℚ)
    (h : previous ≠ 0) :
    (mkDelta cid current 0).change_percent = none ∧
    (mkDelta cid current 0).change_amount = current ∧
    (mkDelta cid current previous).change_percent
      = some ((current - previous) / |previous|) ∧
    (mkDelta cid current previous).change_amount = current - previous := by
  refine ⟨?_, ?_, ?_, rfl⟩
  · simp [mkDelta, changePercent]
  · simp [mkDelta]
  · simp [mkDelta, changePercent, h]

/-- Witness for C3 at `cid = 1`, `current = 5`, `previous = 2`. -/
theorem delta_change_percent_safe_witness :
    (mkDelta 1 5 0).change_percent = none ∧
    (mkDelta 1 5 0).change_amount = 5 ∧
    (mkDelta 1 5 2).change_percent = some ((5 - 2) / |(2 : ℚ)|) ∧
    (mkDelta 1 5 2).change_amount = 5 - 2 :=
  delta_change_percent_safe 1 5 2 (by norm_num)

/-- C7: the GoalForecaster returns `achievable = true`, no suggested cuts
and a null gap for a zero target; in general `achievable = true` iff the
cumulative potential savings reach the target, the gap is null whenever the
target is achievable, and when not achievable the gap is
`max 0 (target − cumulative)`. -/
theorem goal_forecaster_spec (cands : List GoalCut) (disc target : ℚ) :
    ((forecastGoal cands disc 0).achievable = true ∧
     (forecastGoal cands disc 0).suggested_cuts = [] ∧
     (forecastGoal cands disc 0).gap_amount = none) ∧
    ((forecastGoal cands disc target).achievable = true ↔
      target ≤ (forecastGoal cands disc target).total_potential_savings) ∧
    ((forecastGoal cands disc target).achievable = true →
      (forecastGoal cands disc target).gap_amount = none) ∧
    ((forecastGoal cands disc target).achievable = false →
      (forecastGoal cands disc target).gap_amount
        = some (max 0
            (target - (forecastGoal cands disc target).total_potential_savings))) := by
  refine ⟨?_, ?_, ?_, ?_⟩
  · cases cands with
    | nil => simp [forecastGoal, greedyCuts]
    | cons c rest => simp [forecastGoal, greedyCuts]
  · simp [forecastGoal]
  · intro h
    simp only [forecastGoal, decide_eq_true_eq] at h ⊢
    rw [if_pos h]
  · intro h
    simp only [forecastGoal, decide_eq_false_iff_not, not_le] at h ⊢
    rw [if_neg (not_le.mpr h)]

/-- Witness for C7: an empty candidate list with target 1 (not achievable —
the iff and the gap equation), and a single cut with savings 10 against
target 5 (achievable — null gap). -/
theorem goal_forecaster_spec_witness :
    ((forecastGoal [] 0 0).achievable = true ∧
     (forecastGoal [] 0 0).suggested_cuts = [] ∧
     (forecastGoal [] 0 0).gap_amount = none) ∧
    ((forecastGoal [] 0 1).achievable = true ↔
      1 ≤ (forecastGoal [] 0 1).total_potential_savings) ∧
    ((forecastGoal [] 0 1).achievable = false →
      (forecastGoal [] 0 1).gap_amount
        = some (max 0 (1 - (forecastGoal [] 0 1).total_potential_savings))) ∧
    ((forecastGoal [demoCut] 0 5).achievable = true ∧
     (forecastGoal [demoCut] 0 5).gap_amount = none) := by
  have h1 := goal_forecaster_spec [] 0 1
  have h2 := goal_forecaster_spec [demoCut] 0 5
  have hach : (forecastGoal [demoCut] 0 5).achievable = true := by
    norm_num [forecastGoal, greedyCuts, demoCut]
  exact ⟨h1.1, h1.2.1, h1.2.2.2, hach, h2.2.2.1 hach⟩

/-- C10: `handleResponse` returns the parsed JSON body exactly on `ok`
responses; on a non-ok response it throws an `ApiError` whose status is the
response status and whose details come from the error body's
`detail`/`message` when the body parses as JSON (JavaScript falsy
fall-through), else the raw body text — it never returns a value. -/
theorem handle_response_spec (parse : String → Option Json) (r : Response) :
    (r.ok = true → handleResponse parse r = Except.ok r.jsonBody) ∧
    (r.ok = false →
      handleResponse parse r = Except.error
        { message := "API Error: " ++ toString r.status
          status := r.status
          details :=
            match parse r.body with
            | some parsed => jsOr parsed.detail parsed.message
            | none => some r.body } ∧
      ∀ v, handleResponse parse r ≠ Except.ok v) := by
  constructor
  · intro h
    simp [handleResponse, h]
  · intro h
    refine ⟨by simp [handleResponse, h], ?_⟩
    intro v
    simp [handleResponse, h]

/-- Witness for C10: an ok 200 response, and a 404 response whose body does
not parse as JSON. -/
theorem handle_response_spec_witness :
    (handleResponse (fun _ => none)
        { ok := true, status := 200, body := "", jsonBody := ⟨none, none⟩ }
      = Except.ok ⟨none, none⟩) ∧
    (handleResponse (fun _ => none)
        { ok := false, status := 404, body := "gone", jsonBody := ⟨none, none⟩ }
      = Except.error
          { message := "API Error: " ++ toString 404, status := 404,
            details := some "gone" }) :=
  ⟨(handle_response_spec (fun _ => none)
      { ok := true, status := 200, body := "", jsonBody := ⟨none, none⟩ }).1 rfl,
   ((handle_response_spec (fun _ => none)
      { ok := false, status := 404, body := "gone", jsonBody := ⟨none, none⟩ }).2
      rfl).1⟩

/-- C8: the client flow is strictly sequential — the trace of
`uploadAndAnalyze` is exactly upload, then analyze (on the session id the
completed upload returned), then dashboard, and its value is the dashboard
of that session; and in the pipeline each stage consumes the finalized
output of the categorization stage (the derived-entity sets are functions
of the complete categorized transaction list). -/
theorem client_flow_sequential (srv : Server) (rules : List Rule)
    (aiStub : String → ℚ → Option (Nat × ℚ)) (tax : List Category)
    (aiSum : List Anomaly → List RecurringCharge → List Delta →
      Option (List Insight)) (ts : List Transaction) :
    (uploadAndAnalyze srv []).1 =
      [ApiCall.upload, ApiCall.analyze srv.uploadResp.session_id,
       ApiCall.dashboard srv.uploadResp.session_id] ∧
    (uploadAndAnalyze srv []).2 =
      srv.dashboardResp srv.uploadResp.session_id ∧
    (runPipeline rules aiStub tax aiSum ts).1 = categorizeAll rules aiStub tax ts ∧
    (runPipeline rules aiStub tax aiSum ts).2.anomalies
      = detectAnomalies tax (runPipeline rules aiStub tax aiSum ts).1 ∧
    (runPipeline rules aiStub tax aiSum ts).2.recurring
      = detectRecurring tax (runPipeline rules aiStub tax aiSum ts).1 ∧
    (runPipeline rules aiStub tax aiSum ts).2.deltas
      = calcDeltas tax (runPipeline rules aiStub tax aiSum ts).1 ∧
    (runPipeline rules aiStub tax aiSum ts).2.insights
      = generateInsights (runPipeline rules aiStub tax aiSum ts).2.anomalies
          (runPipeline rules aiStub tax aiSum ts).2.recurring
          (runPipeline rules aiStub tax aiSum ts).2.deltas
          (aiSum (runPipeline rules aiStub tax aiSum ts).2.anomalies
            (runPipeline rules aiStub tax aiSum ts).2.recurring
            (runPipeline rules aiStub tax aiSum ts).2.deltas) :=
  ⟨rfl, rfl, rfl, rfl, rfl, rfl, rfl⟩

/-- Every anomaly emitted for a category group carries that category's id. -/
lemma mem_detectCategoryAnomalies_id (ts : List Transaction) (k : Nat)
    (a : Anomaly) (ha : a ∈ detectCategoryAnomalies ts k) : a.category_id = k := by
  simp only [detectCategoryAnomalies] at ha
  split at ha
  · simp at ha
  · rw [List.mem_filterMap] at ha
    obtain ⟨t, _, hf⟩ := ha
    split at hf
    · split at hf
      · injection hf with hf
        rw [← hf]
      · cases hf
    · split at hf
      · injection hf with hf
        rw [← hf]
      · cases hf

/-- A category group below the minimum sample size emits no anomalies. -/
lemma detectCategoryAnomalies_small (ts : List Transaction) (k : Nat)
    (h : (ts.filter (fun t => t.category = some k)).length < MIN_SAMPLE_SIZE) :
    detectCategoryAnomalies ts k = [] := by
  simp only [detectCategoryAnomalies]
  rw [if_pos h]

/-- C5: a category whose transaction count is below the minimum sample size
gets zero anomalies referencing it from the AnomalyDetector. -/
theorem anomaly_min_sample (tax : List Category) (ts : List Transaction)
    (cid : Nat)
    (h : (ts.filter (fun t => t.category = some cid)).length < MIN_SAMPLE_SIZE) :
    (detectAnomalies tax ts).filter (fun a => a.category_id == cid) = [] := by
  rw [List.filter_eq_nil_iff]
  intro a ha
  simp only [beq_iff_eq]
  intro hcid
  rw [detectAnomalies, List.mem_flatMap] at ha
  obtain ⟨c, _, hmem⟩ := ha
  have hk := mem_detectCategoryAnomalies_id ts c.id a hmem
  rw [hk] at hcid
  rw [hcid, detectCategoryAnomalies_small ts cid h] at hmem
  exact absurd hmem (List.not_mem_nil a)

/-- Witness for C5: category 2 has no transactions in the fixture, hence no
anomalies reference it. -/
theorem anomaly_min_sample_witness :
    (sampleTs.filter (fun t => t.category = some 2)).length < MIN_SAMPLE_SIZE ∧
    (detectAnomalies taxEnt sampleTs).filter (fun a => a.category_id == 2) = [] :=
  ⟨by decide, anomaly_min_sample taxEnt sampleTs 2 (by decide)⟩

/-- An emitted cluster always has at least two occurrences. -/
lemma detectCluster_occurrences (tax : List Category) (ts : List Transaction)
    (key : String) (rc : RecurringCharge)
    (h : detectCluster tax ts key = some rc) : 2 ≤ rc.occurrences := by
  simp only [detectCluster] at h
  split at h
  · cases h
  next hlen =>
    split at h
    · cases h
    · injection h with h
      rw [← h]
      exact Nat.le_of_not_lt hlen

/-- C6: every RecurringCharge the detector emits has at least two
occurrences, and a description cluster with exactly one occurrence yields
no RecurringCharge. -/
theorem recurring_min_occurrences (tax : List Category) (ts : List Transaction) :
    (∀ rc ∈ detectRecurring tax ts, 2 ≤ rc.occurrences) ∧
    (∀ key,
      (ts.filter (fun t => normalizeKey t.description = key)).length = 1 →
      detectCluster tax ts key = none) := by
  constructor
  · intro rc hrc
    rw [detectRecurring, List.mem_filterMap] at hrc
    obtain ⟨key, _, hk⟩ := hrc
    exact detectCluster_occurrences tax ts key rc hk
  · intro key hkey
    simp only [detectCluster]
    rw [if_pos (by omega)]

/-- The GYM cluster of the fixture evaluates to `gymCharge`. -/
lemma detectCluster_gym : detectCluster taxEnt recTs "gym" = some gymCharge := by
  have hfil : recTs.filter (fun t => normalizeKey t.description = "gym")
      = [gymTx 1 0, gymTx 2 7] := by decide
  simp only [detectCluster, hfil]
  norm_num [dayGaps, listMean, listVariance, clusterEssential, frequencyLabel,
    GRAY_CHARGE_THRESHOLD, gymTx, taxEnt, gymCharge, List.insertionSort,
    List.orderedInsert, min_def]

/-- The lone SPOTIFY cluster of the fixture evaluates to no charge. -/
lemma detectCluster_spotify : detectCluster taxEnt recTs "spotify" = none := by
  simp only [detectCluster]
  rw [if_pos (show (recTs.filter
      (fun t => normalizeKey t.description = "spotify")).length < 2 from by decide)]

/-- Witness for C6: the two weekly GYM occurrences produce a RecurringCharge
with 2 occurrences; the lone SPOTIFY cluster produces none. -/
theorem recurring_min_occurrences_witness :
    2 ≤ gymCharge.occurrences ∧
    detectCluster taxEnt recTs "spotify" = none :=
  ⟨(recurring_min_occurrences taxEnt recTs).1 gymCharge
      (by
        rw [detectRecurring,
          show (recTs.map (fun t => normalizeKey t.description)).dedup
              = ["gym", "spotify"] from by decide]
        simp [List.filterMap, detectCluster_gym, detectCluster_spotify]),
   (recurring_min_occurrences taxEnt recTs).2 "spotify" (by decide)⟩

/-- A user-sourced transaction passes through the Categorizer unchanged. -/
lemma categorizeOne_user (rules : List Rule)
    (aiStub : String → ℚ → Option (Nat × ℚ)) (tax : List Category)
    (t : Transaction) (hu : t.source = some Source.user) :
    categorizeOne rules aiStub tax t = t := by
  simp [categorizeOne, hu]

/-- C2: after the Categorizer runs, every transaction has a confidence in
`[0,1]` and a source among rule/ai/user/fallback (non-null); and a
user-sourced transaction is never overwritten by an automated run. -/
theorem categorizer_invariants (rules : List Rule)
    (aiStub : String → ℚ → Option (Nat × ℚ)) (tax : List Category)
    (ts : List Transaction)
    (h : ∀ t ∈ ts, t.source = some Source.user →
      ∃ c, t.confidence = some c ∧ 0 ≤ c ∧ c ≤ 1) :
    (∀ t' ∈ categorizeAll rules aiStub tax ts,
      (∃ c, t'.confidence = some c ∧ 0 ≤ c ∧ c ≤ 1) ∧
      (∃ s, t'.source = some s ∧
        (s = Source.rule ∨ s = Source.ai ∨ s = Source.user ∨
          s = Source.fallback))) ∧
    (∀ t, t.source = some Source.user → categorizeOne rules aiStub tax t = t) := by
  constructor
  · intro t' ht'
    rw [categorizeAll, List.mem_map] at ht'
    obtain ⟨t, ht, rfl⟩ := ht'
    by_cases hu : t.source = some Source.user
    · rw [categorizeOne_user rules aiStub tax t hu]
      obtain ⟨c, hc, h0, h1⟩ := h t ht hu
      exact ⟨⟨c, hc, h0, h1⟩, ⟨Source.user, hu, by simp⟩⟩
    · simp only [categorizeOne, if_neg hu]
      rcases hr : findRule rules t.description with _ | r
      · rcases ha : aiStub t.description t.amount with _ | ⟨cid, conf⟩
        · exact ⟨⟨0, rfl, le_refl 0, by norm_num⟩, ⟨Source.fallback, rfl, by simp⟩⟩
        · by_cases htax : tax.any (fun c => c.id = cid) = true
          · dsimp only
            rw [if_pos htax]
            refine ⟨⟨clamp01 conf, rfl, ?_, ?_⟩, ⟨Source.ai, rfl, by simp⟩⟩
            · exact le_min (by norm_num) (le_max_left 0 conf)
            · exact min_le_left 1 _
          · dsimp only
            rw [if_neg htax]
            exact ⟨⟨0, rfl, le_refl 0, by norm_num⟩, ⟨Source.fallback, rfl, by simp⟩⟩
      · exact ⟨⟨1, rfl, by norm_num, le_refl 1⟩, ⟨Source.rule, rfl, by simp⟩⟩
  · intro t hu
    exact categorizeOne_user rules aiStub tax t hu

/-- Witness for C2 on a singleton list holding a user-categorized
transaction with confidence 1/2. -/
theorem categorizer_invariants_witness :
    ((∃ c, userTx.confidence = some c ∧ 0 ≤ c ∧ c ≤ 1) ∧
     (∃ s, userTx.source = some s ∧
       (s = Source.rule ∨ s = Source.ai ∨ s = Source.user ∨
         s = Source.fallback))) ∧
    categorizeOne sampleRules failingAiStub taxEnt userTx = userTx :=
  ⟨(categorizer_invariants sampleRules failingAiStub taxEnt [userTx]
      (fun t ht _ => by
        rw [List.mem_singleton] at ht
        subst ht
        exact ⟨1 / 2, rfl, by norm_num, by norm_num⟩)).1 userTx
      (by
        rw [show categorizeAll sampleRules failingAiStub taxEnt [userTx]
            = [userTx] from rfl]
        exact List.mem_singleton.mpr rfl),
   (categorizer_invariants sampleRules failingAiStub taxEnt [userTx]
      (fun t ht _ => by
        rw [List.mem_singleton] at ht
        subst ht
        exact ⟨1 / 2, rfl, by norm_num, by norm_num⟩)).2 userTx rfl⟩

/-- C4: the generated Insight list is sorted by priority ascending with
confidence descending as tiebreak; and on AI-summarizer failure the list
still contains every template-derived insight. -/
theorem insight_generator_spec (anoms : List Anomaly)
    (recs : List RecurringCharge) (ds : List Delta)
    (aiExtra : Option (List Insight)) :
    List.Sorted insightOrder (generateInsights anoms recs ds aiExtra) ∧
    (∀ i ∈ templateInsights anoms recs ds,
      i ∈ generateInsights anoms recs ds none) := by
  constructor
  · exact List.sorted_insertionSort insightOrder _
  · intro i hi
    rw [generateInsights]
    exact ((List.perm_insertionSort insightOrder _).mem_iff).mpr (by simp [hi])

/-- Witness for C4: quiet data with a failed AI call still yields the
positive template insight, in sorted order. -/
theorem insight_generator_spec_witness :
    List.Sorted insightOrder (generateInsights [] [] [] none) ∧
    posInsight ∈ generateInsights [] [] [] none :=
  ⟨(insight_generator_spec [] [] [] none).1,
   (insight_generator_spec [] [] [] none).2 posInsight (by
      rw [show templateInsights [] [] [] = [posInsight] from rfl]
      exact List.mem_singleton.mpr rfl)⟩

/-- C9: the chart data is exactly the negative-amount (expense) entries of
`by_category` mapped to their absolute amounts, sorted by value descending;
the legend is its first five entries, and the "+N more categories" note
appears with `N = length − 5` exactly when more than five entries exist. -/
theorem spending_chart_spec (s : SpendingSummary) :
    (chartData s).Perm
      ((s.by_category.filter (fun p => p.2.amount < 0)).map
        (fun p => ChartDatum.mk p.1 |p.2.amount| p.2.icon)) ∧
    List.Sorted chartOrder (chartData s) ∧
    legendEntries s = (chartData s).take 5 ∧
    (legendEntries s).length ≤ 5 ∧
    (∀ n, moreNote s = some n ↔
      5 < (chartData s).length ∧ n = (chartData s).length - 5) := by
  refine ⟨List.perm_insertionSort chartOrder _,
    List.sorted_insertionSort chartOrder _, rfl, ?_, ?_⟩
  · simp only [legendEntries, List.length_take]
    omega
  · intro n
    simp only [moreNote]
    split_ifs with h <;> simp [h, eq_comm]

/-- Witness for C9 on a six-expense-category summary, with the note count
instantiated at 1. -/
theorem spending_chart_spec_witness :
    (legendEntries chartSummary).length ≤ 5 ∧
    (moreNote chartSummary = some 1 ↔
      5 < (chartData chartSummary).length ∧
      1 = (chartData chartSummary).length - 5) :=
  ⟨(spending_chart_spec chartSummary).2.2.2.1,
   (spending_chart_spec chartSummary).2.2.2.2 1⟩

/-- The Categorizer is idempotent on a single transaction. -/
lemma categorizeOne_idem (rules : List Rule)
    (aiStub : String → ℚ → Option (Nat × ℚ)) (tax : List Category)
    (t : Transaction) :
    categorizeOne rules aiStub tax (categorizeOne rules aiStub tax t)
      = categorizeOne rules aiStub tax t := by
  by_cases hu : t.source = some Source.user
  · rw [categorizeOne_user rules aiStub tax t hu,
        categorizeOne_user rules aiStub tax t hu]
  · rcases hr : findRule rules t.description with _ | r
    · rcases ha : aiStub t.description t.amount with _ | ⟨cid, conf⟩
      · have h1 : categorizeOne rules aiStub tax t =
            { t with category := some uncategorizedId, confidence := some 0,
                     source := some Source.fallback } := by
          simp [categorizeOne, hu, hr, ha]
        rw [h1]
        simp [categorizeOne, hr, ha]
      · by_cases htax : tax.any (fun c => c.id = cid) = true
        · have h1 : categorizeOne rules aiStub tax t =
              { t with category := some cid, confidence := some (clamp01 conf),
                       source := some Source.ai } := by
            simp [categorizeOne, hu, hr, ha, htax]
          rw [h1]
          simp [categorizeOne, hr, ha, htax]
        · have h1 : categorizeOne rules aiStub tax t =
              { t with category := some uncategorizedId, confidence := some 0,
                       source := some Source.fallback } := by
            simp [categorizeOne, hu, hr, ha, htax]
          rw [h1]
          simp [categorizeOne, hr, ha, htax]
    · have h1 : categorizeOne rules aiStub tax t =
          { t with category := some r.categoryId, confidence := some 1,
                   source := some Source.rule } := by
        simp [categorizeOne, hu, hr]
      rw [h1]
      simp [categorizeOne, hr]

/-- The Categorizer is idempotent on transaction lists. -/
lemma categorizeAll_idem (rules : List Rule)
    (aiStub : String → ℚ → Option (Nat × ℚ)) (tax : List Category)
    (ts : List Transaction) :
    categorizeAll rules aiStub tax (categorizeAll rules aiStub tax ts)
      = categorizeAll rules aiStub tax ts := by
  unfold categorizeAll
  rw [List.map_map]
  exact List.map_congr_left (fun t _ => categorizeOne_idem rules aiStub tax t)

/-- C1: with a deterministic AI stub, re-running the full pipeline on the
transactions produced by a run yields exactly the same categorized
transactions and the same derived-entity sets (Anomalies, RecurringCharges,
Deltas, Insights) — the pipeline is idempotent and deterministic on
unchanged input. -/
theorem pipeline_idempotent (rules : List Rule)
    (aiStub : String → ℚ → Option (Nat × ℚ)) (tax : List Category)
    (aiSum : List Anomaly → List RecurringCharge → List Delta →
      Option (List Insight)) (ts : List Transaction) :
    runPipeline rules aiStub tax aiSum
        ((runPipeline rules aiStub tax aiSum ts).1)
      = runPipeline rules aiStub tax aiSum ts := by
  simp only [runPipeline]
  rw [categorizeAll_idem]

end Dinera
